import Mathlib

/-!
Shallow embedding of the cfg-toy repository (grammar-constrained SQL
generation and its evaluation harness) and verification of the spec claims.

Source files embedded:
- src/evaluation/evaluator.py   (Evaluator.compare_queries, run_evaluation,
  calculate_metrics)
- src/evaluation/test_cases.py  (TEST_CASES)
- src/cfg/query_generator.py    (QueryGenerator.generate_query_with_clarification)

Python strings are modelled as Lean `String`s operated on through their
character lists; Python floats are modelled as `ℚ` (all arithmetic involved
is exact on small rationals); Python exceptions are modelled with
`Except String`; Python dicts of fixed shape are modelled as structures,
with `Option` for keys that some code paths omit.
-/

namespace CfgToy

/-! ## Python string primitives -/

/-- Python ASCII whitespace, the set used by `str.strip()` / `str.split()`. -/
def isPyWs (c : Char) : Bool :=
  c = ' ' || c = '\t' || c = '\n' || c = '\r' || c = '\x0b' || c = '\x0c'

/-- Python `str.strip()`: drop leading and trailing whitespace. -/
def pyStrip (s : String) : String :=
  ⟨((s.data.dropWhile isPyWs).reverse.dropWhile isPyWs).reverse⟩

/-- Python `str.lower()` (the inputs involved are ASCII). -/
def pyLower (s : String) : String :=
  ⟨s.data.map Char.toLower⟩

/-- Fuelled core of Python `str.replace`: replace non-overlapping occurrences
of `pat` left to right.  With `fuel ≥ s.length` the fuel never runs out,
since every step consumes at least one character. -/
def replaceAux (pat rep : List Char) : Nat → List Char → List Char
  | _, [] => []
  | 0, s => s
  | fuel + 1, c :: cs =>
    if pat.isPrefixOf (c :: cs) then
      rep ++ replaceAux pat rep fuel (List.drop (pat.length - 1) cs)
    else
      c :: replaceAux pat rep fuel cs

/-- Python `s.replace(pat, rep)` (for the non-empty patterns the code uses). -/
def pyReplace (s pat rep : String) : String :=
  ⟨replaceAux pat.data rep.data s.data.length s.data⟩

/-- Occurrence test for a character-list pattern inside a character list. -/
def containsL (pat : List Char) : List Char → Bool
  | [] => pat.isPrefixOf []
  | c :: cs => pat.isPrefixOf (c :: cs) || containsL pat cs

/-- Python `sub in s` substring test. -/
def pyIn (sub s : String) : Bool :=
  containsL sub.data s.data

/-- Accumulator-based core of Python `str.split()` (no argument): split on
runs of whitespace, dropping empty pieces. -/
def splitWsAux : List Char → List Char → List String
  | [], acc => if acc.isEmpty then [] else [⟨acc.reverse⟩]
  | c :: cs, acc =>
    if isPyWs c then
      if acc.isEmpty then splitWsAux cs []
      else (⟨acc.reverse⟩ : String) :: splitWsAux cs []
    else splitWsAux cs (c :: acc)

/-- Python `str.split()` with no argument. -/
def pySplit (s : String) : List String :=
  splitWsAux s.data []

/-! ## Query Normalizer & Comparator (src/evaluation/evaluator.py 15-42) -/

/-- The inner `normalize` of `Evaluator.compare_queries`:
`query.lower().replace(" ", "").replace("'", "").replace('"', "").strip()`,
with `None` mapped to `""`. -/
def normalize (query : Option String) : String :=
  match query with
  | none => ""
  | some q => pyStrip (pyReplace (pyReplace (pyReplace (pyLower q) " " "") "\x27" "") "\"" "")

/-- `set(s.split())`: the token set of a string. -/
def tokens (s : String) : Finset String :=
  (pySplit s).toFinset

/-- `Evaluator.compare_queries(generated, expected)`.  `generated is None`
returns `False`; otherwise both strings are normalized, an exact match of the
normalized forms returns `True`, and otherwise the Jaccard similarity of the
token sets of the (already whitespace-stripped) normalized strings is
compared against the 0.8 threshold. -/
def compare_queries (generated : Option String) (expected : String) : Bool :=
  match generated with
  | none => false
  | some g =>
    let normalized_generated := normalize (some g)
    let normalized_expected := normalize (some expected)
    if normalized_generated = normalized_expected then true
    else
      let generated_words := tokens normalized_generated
      let expected_words := tokens normalized_expected
      let inter := generated_words ∩ expected_words
      let uni := generated_words ∪ expected_words
      -- `len(intersection) / len(union) if union else 0`
      let similarity : ℚ := if uni = ∅ then 0 else (inter.card : ℚ) / (uni.card : ℚ)
      decide (similarity > 4 / 5)  -- 80% similarity threshold

/-- Jaccard similarity as the spec words it: `|A∩B| / |A∪B|`, `0` when the
union is empty.  Spec-side definition, used to compare against the code. -/
def specJaccard (A B : Finset String) : ℚ :=
  if A ∪ B = ∅ then 0 else ((A ∩ B).card : ℚ) / ((A ∪ B).card : ℚ)

/-- The tokenization the claim prescribes: split the lowercased,
leading/trailing-stripped string — a string that still retains its internal
whitespace and quote characters — on whitespace into a token set.
Spec-side definition, used to compare against the code, which instead
tokenizes the fully normalized (space- and quote-removed) string. -/
def specTokens (s : String) : Finset String :=
  (pySplit (pyStrip (pyLower s))).toFinset


/-! ## Generation Orchestrator (src/cfg/query_generator.py) -/

/-- The fixed clarification-indicating phrase list of
`generate_query_with_clarification` (lines 70 and 86), in source order. -/
def CLAR_PHRASES : List String :=
  ["clarify", "specify", "could you", "please", "what do you want", "not sure", "infer"]

/-- `any(phrase in text for phrase in [...])` on an (already lowercased) text. -/
def hasClarPhrase (text : String) : Bool :=
  CLAR_PHRASES.any (fun phrase => pyIn phrase text)

/-- The "Fix common spacing issues" block (lines 139-143): four literal
`str.replace` calls gluing a space back between `orders` and a clause
keyword. -/
def fix_spacing (q : String) : String :=
  pyReplace (pyReplace (pyReplace (pyReplace q
    "FROM ordersWHERE" "FROM orders WHERE")
    "FROM ordersGROUP BY" "FROM orders GROUP BY")
    "FROM ordersORDER BY" "FROM orders ORDER BY")
    "FROM ordersLIMIT" "FROM orders LIMIT"

/-- A Python attribute value that is either a string or a list of strings
(the two shapes probed for `output.input` and `output.text`). -/
inductive StrOrList where
  | str (s : String)
  | list (ss : List String)
deriving DecidableEq

/-- An element of `output.content` when the content is a list: either an
object carrying a `.text` attribute, or anything else (rendered by `str`). -/
inductive ContentItem where
  | textItem (text : String)
  | other (repr : String)
deriving DecidableEq

/-- The shapes the code probes for `output.content`: an object with a `.text`
attribute (`ResponseOutputText`), a list of content items, or a plain
string. -/
inductive ContentVal where
  | textObj (text : String)
  | items (xs : List ContentItem)
  | plain (s : String)
deriving DecidableEq

/-- Python truthiness of a content value: an object is always truthy, a list
or string is truthy when non-empty. -/
def contentTruthy : ContentVal → Bool
  | .textObj _ => true
  | .items xs => !xs.isEmpty
  | .plain s => s ≠ ""

/-- One element of `response.output`.  `none` models an absent attribute. -/
structure OutputElem where
  inp : Option StrOrList        -- `output.input`
  content : Option ContentVal   -- `output.content`
  text : Option StrOrList       -- `output.text`
deriving DecidableEq

/-- `hasattr(output, a) and output.a` followed by the string/list extraction
of lines 58-64 (and identically 108-114): truthy string is stripped; truthy
list yields its stripped first element. -/
def slHit : Option StrOrList → Option String
  | some (.str s) => if s = "" then none else some (pyStrip s)
  | some (.list ss) => if ss.isEmpty then none else some (pyStrip (ss.headD ""))
  | none => none

/-- Outcome of probing a truthy-or-not `output.content` in the first loop
(lines 65-107).  `blank` means the attribute was falsy (fall through to the
`output.text` probe); `brkQ q` means `generated_query = q; break`;
`retClar m` means the early `return` of a clarification dict. -/
inductive Probe where
  | blank
  | brkQ (q : String)
  | retClar (m : String)
deriving DecidableEq

/-- The content probe of the first loop (lines 65-107).  The `textObj` and
list-with-`.text`-head shapes strip the text and sniff it for clarification
phrases; a list head without `.text` is `str(...)`-rendered and stripped; a
plain string is stripped.  (The `else: generated_query = ""` at line 103 is
unreachable: it needs `output.content` truthy and the list empty at once.) -/
def contentProbe : ContentVal → Probe
  | .textObj t =>
    let content_text := pyStrip t
    if hasClarPhrase (pyLower content_text) then .retClar content_text
    else .brkQ content_text
  | .items [] => .blank
  | .items (.textItem t :: _) =>
    let content_text := pyStrip t
    if hasClarPhrase (pyLower content_text) then .retClar content_text
    else .brkQ content_text
  | .items (.other r :: _) => .brkQ (pyStrip r)
  | .plain s => if s = "" then .blank else .brkQ (pyStrip s)

/-- Result of the first extraction loop (lines 55-114): `brk` carries the
`generated_query` set before `break`; `ret` is the early clarification
return; `done` means the loop finished with no usable hit. -/
inductive LoopOut where
  | brk (q : String)
  | ret (m : String)
  | done
deriving DecidableEq

/-- The first extraction loop over `response.output` (lines 55-114):
`output.input`, then `output.content`, then `output.text`, in that order. -/
def firstPass : List OutputElem → LoopOut
  | [] => .done
  | o :: os =>
    match slHit o.inp with
    | some q => .brk q
    | none =>
      match o.content with
      | some cv =>
        match contentProbe cv with
        | .brkQ q => .brk q
        | .retClar m => .ret m
        | .blank =>
          match slHit o.text with
          | some q => .brk q
          | none => firstPass os
      | none =>
        match slHit o.text with
        | some q => .brk q
        | none => firstPass os

/-- The returned dict `{"query": ..., "clarification": ..., "status": ...}`. -/
structure GenDict where
  query : Option String
  clarification : Option String
  status : String
deriving DecidableEq

/-- First truthy `.text` among the content items (inner loop of lines
120-129). -/
def findText : List ContentItem → Option String
  | [] => none
  | .textItem t :: rest => if t = "" then findText rest else some t
  | .other _ :: rest => findText rest

/-- The fallback loop of lines 116-136, entered when no truthy
`generated_query` was extracted: scan outputs with truthy content for a
content item with truthy `.text` and return it (unstripped) as a
clarification.  Iterating a `textObj` content (a non-iterable object) raises
a `TypeError`; iterating a plain string yields one-character strings, which
have no `.text` attribute.  If nothing is found, return the generic
clarification of lines 132-136. -/
def secondPass : List OutputElem → Except String GenDict
  | [] =>
    .ok ⟨none, some "I couldn\x27t understand your query. Please try rephrasing it.",
      "needs_clarification"⟩
  | o :: os =>
    match o.content with
    | some cv =>
      if contentTruthy cv then
        match cv with
        | .textObj _ => .error "TypeError: object is not iterable"
        | .items xs =>
          match findText xs with
          | some t => .ok ⟨none, some t, "needs_clarification"⟩
          | none => secondPass os
        | .plain _ => secondPass os
      else secondPass os
    | none => secondPass os

/-- Processing of `response.output` after the transport call succeeded
(lines 49-151): first loop, then either the clarification return, the
fallback loop, or the success return with the spacing fix-ups applied
(`clarification_message` is necessarily still `None` there, every assignment
to it returns immediately). -/
def processOutputs (outs : List OutputElem) : Except String GenDict :=
  match firstPass outs with
  | .ret m => .ok ⟨none, some m, "needs_clarification"⟩
  | .brk q =>
    if q = "" then secondPass outs
    else
      let fixed := fix_spacing q
      .ok ⟨some fixed, none, if fixed = "" then "needs_clarification" else "success"⟩
  | .done => secondPass outs

/-- The enhanced prompt built at lines 20-28 around the user question. -/
def enhancedPrompt (natural_language_query : String) : String :=
  "\nHey! I need you to help me convert this natural language question into a ClickHouse SQL query.\n\nThe user asked: \"" ++ natural_language_query ++ "\"\n\nCould you use the clickhouse_grammar tool to generate the appropriate SQL query? If query is very ambiguous, you should return a clarification message.\n\nThanks!\n"

/-- State of the external generation capability: the queue of outcomes the
service will produce for successive calls (`Except.error` models a raised
transport/service exception) and the number of calls made so far. -/
structure CapState where
  queue : List (Except String (List OutputElem))
  calls : Nat

/-- One call to `self.client.responses.create(...)`: consume the next queued
outcome and bump the call counter.  The prompt does not influence the
modelled service. -/
def capCall (_prompt : String) (st : CapState) :
    Except String (List OutputElem) × CapState :=
  match st.queue with
  | [] => (.error "no response", ⟨[], st.calls + 1⟩)
  | r :: rest => (r, ⟨rest, st.calls + 1⟩)

/-- `QueryGenerator.generate_query_with_clarification` (lines 16-155): build
the prompt, make the single capability call, process the outputs.  The
`except Exception: ... raise` at lines 153-155 re-raises, so a transport
exception (and the `TypeError` of the fallback loop) escapes as
`Except.error`. -/
def generate_query_with_clarification (natural_language_query : String)
    (st : CapState) : Except String GenDict × CapState :=
  let (response, st1) := capCall (enhancedPrompt natural_language_query) st
  match response with
  | .error e => (.error e, st1)
  | .ok outs => (processOutputs outs, st1)

/-- `QueryGenerator.generate_query` (lines 12-14) just delegates. -/
def generate_query (natural_language_query : String) (st : CapState) :
    Except String GenDict × CapState :=
  generate_query_with_clarification natural_language_query st

/-! ## Test corpus (src/evaluation/test_cases.py) -/

/-- One entry of `TEST_CASES`. -/
structure TestCase where
  id : String
  natural_language_query : String
  expected_query : String
  description : String
  category : String
deriving DecidableEq

/-- The fixed five-case corpus of src/evaluation/test_cases.py. -/
def TEST_CASES : List TestCase :=
  [⟨"basic-count", "count all orders",
    "SELECT COUNT(*) FROM orders;",
    "Basic count query", "basic"⟩,
   ⟨"sum-amount", "sum the total amount of all orders",
    "SELECT SUM(total_amount) FROM orders;",
    "Sum aggregation query", "aggregation"⟩,
   ⟨"time-filter", "sum the total of all orders placed in the last 30 hours",
    "SELECT SUM(total_amount) FROM orders WHERE order_date >= NOW() - INTERVAL 30 HOUR;",
    "Time-based filtering with aggregation", "filtering"⟩,
   ⟨"status-filter", "count orders with status completed",
    "SELECT COUNT(*) FROM orders WHERE status = \x27completed\x27;",
    "Status filtering", "filtering"⟩,
   ⟨"complex-aggregation", "average order amount by status",
    "SELECT status, AVG(total_amount) FROM orders GROUP BY status;",
    "Group by aggregation", "complex"⟩]

/-! ## Evaluation Harness (src/evaluation/evaluator.py 44-170) -/

/-- The value `self.query_generator.generate_query(...)` evaluates to, as the
harness sees it (lines 82-88): a dict probed with `.get("query")`, `None`,
or anything else rendered by `str(response)`. -/
inductive PyResp where
  | dict (query : Option String)
  | pynone
  | other (s : String)
deriving DecidableEq

/-- Line 82-88: extract `generated_query` from the response. -/
def extractQuery : PyResp → String
  | .dict q => q.getD ""
  | .pynone => ""
  | .other s => s

/-- Observable behaviour of one loop iteration, over everything external to
the harness: the generation call either returns a response or raises with a
message; the measured generation latency and the timestamps; and whether the
progress callback, when invoked, returns normally — on the normal path
(line 108-109) and on the error path (line 126-127) — with the message of
the exception it raises otherwise. -/
structure CaseRun where
  response : Except String PyResp
  genTime : ℚ
  ts : ℚ
  cbPassOk : Bool
  cbErrOk : Bool
  cbMsg : String

/-- One per-case result dict (lines 92-100 / 113-122).  `error` is `none`
for the normal-path dict, which carries no `"error"` key. -/
structure EvalResult where
  id : String
  test_case : TestCase
  generated_query : String
  expected_query : String
  is_correct : Bool
  execution_time : ℚ
  timestamp : ℚ
  error : Option String
deriving DecidableEq

/-- The normal-path result dict (lines 92-100). -/
def okResult (tc : TestCase) (b : CaseRun) (gq : String) : EvalResult :=
  ⟨tc.id, tc, gq, tc.expected_query,
   compare_queries (some gq) tc.expected_query, b.genTime, b.ts, none⟩

/-- The error-path result dict (lines 113-122): empty generated query,
`is_correct` false, execution time 0, the error message recorded. -/
def errResult (tc : TestCase) (b : CaseRun) (e : String) : EvalResult :=
  ⟨tc.id, tc, "", tc.expected_query, false, 0, b.ts, some e⟩

/-- One `category_breakdown` entry (lines 157-161). -/
structure CatStats where
  total : Nat
  passed : Nat
  accuracy : ℚ
deriving DecidableEq

/-- The metrics dict.  `failed_tests` is optional because the
no-client early return (lines 53-63) builds a metrics dict without that
key; `calculate_metrics` always sets it. -/
structure Metrics where
  total_tests : Nat
  passed_tests : Nat
  failed_tests : Option Nat
  accuracy : ℚ
  average_execution_time : ℚ
  category_breakdown : List (String × CatStats)
deriving DecidableEq

/-- `Evaluator.calculate_metrics(results, total_execution_time)`
(lines 139-170). -/
def calculate_metrics (results : List EvalResult)
    (total_execution_time : ℚ) : Metrics :=
  let total_tests := results.length
  let passed_tests := (results.filter (fun r => r.is_correct)).length
  let failed_tests := total_tests - passed_tests
  let accuracy : ℚ :=
    if total_tests > 0 then (passed_tests : ℚ) / (total_tests : ℚ) else 0
  let average_execution_time : ℚ :=
    if total_tests > 0 then total_execution_time / (total_tests : ℚ) else 0
  let category_breakdown :=
    ["basic", "aggregation", "filtering", "complex"].map (fun category =>
      let category_results := results.filter (fun r => r.test_case.category = category)
      let category_total := category_results.length
      let category_passed := (category_results.filter (fun r => r.is_correct)).length
      let category_accuracy : ℚ :=
        if category_total > 0 then (category_passed : ℚ) / (category_total : ℚ) else 0
      (category, ⟨category_total, category_passed, category_accuracy⟩))
  ⟨total_tests, passed_tests, some failed_tests, accuracy,
   average_execution_time, category_breakdown⟩

/-- The report dict returned by `run_evaluation`: results, metrics and the
`"error"` key that only the no-client early return carries. -/
structure Report where
  results : List EvalResult
  metrics : Metrics
  error : Option String
deriving DecidableEq

/-- The test-case loop of `run_evaluation` (lines 71-127), with the
behaviour of iteration `i` given by `beh i`.  Per case: if the generation
call raises, the error result is appended and (when a callback was supplied)
the error-path callback runs — a callback exception there is uncaught and
aborts the whole run.  If the generation call returns, the normal result is
appended and the accumulated execution time grows by the latency; a raising
normal-path callback is caught by the per-case handler, which appends a
second, failing result for the same case and then runs the error-path
callback (uncaught if it raises too). -/
def runLoop (hasCb : Bool) (beh : Nat → CaseRun) :
    List TestCase → Nat → Except String (List EvalResult × ℚ)
  | [], _ => .ok ([], 0)
  | tc :: rest, i =>
    let b := beh i
    match b.response with
    | .error e =>
      if hasCb && !b.cbErrOk then .error b.cbMsg
      else
        match runLoop hasCb beh rest (i + 1) with
        | .error a => .error a
        | .ok (rs, t) => .ok (errResult tc b e :: rs, t)
    | .ok resp =>
      let r := okResult tc b (extractQuery resp)
      if hasCb && !b.cbPassOk then
        if !b.cbErrOk then .error b.cbMsg
        else
          match runLoop hasCb beh rest (i + 1) with
          | .error a => .error a
          | .ok (rs, t) => .ok (r :: errResult tc b b.cbMsg :: rs, b.genTime + t)
      else
        match runLoop hasCb beh rest (i + 1) with
        | .error a => .error a
        | .ok (rs, t) => .ok (r :: rs, b.genTime + t)

/-- The message of the no-client early return (lines 52, 62). -/
def NO_CLIENT_MSG : String :=
  "QueryGenerator is not functional - OpenAI API key not configured"

/-- `Evaluator.run_evaluation` (lines 44-137) over an explicit corpus (the
loop body is uniform in the test case; the repository instantiates it with
`TEST_CASES`, see `run_evaluation`).  `clientIsNone` is the value of
`self.query_generator.client is None`.  The early return builds its metrics
dict literally: `total_tests = len(TEST_CASES)`, no `failed_tests` key, an
empty `category_breakdown`. -/
def runEvaluationOn (clientIsNone : Bool) (hasCb : Bool) (beh : Nat → CaseRun)
    (corpus : List TestCase) : Except String Report :=
  if clientIsNone then
    .ok ⟨[], ⟨corpus.length, 0, none, 0, 0, []⟩, some NO_CLIENT_MSG⟩
  else
    match runLoop hasCb beh corpus 0 with
    | .error a => .error a
    | .ok (rs, total_execution_time) =>
      .ok ⟨rs, calculate_metrics rs total_execution_time, none⟩

/-- `Evaluator.run_evaluation` as in the source: the loop runs over the
module-level `TEST_CASES`. -/
def run_evaluation (clientIsNone : Bool) (hasCb : Bool)
    (beh : Nat → CaseRun) : Except String Report :=
  runEvaluationOn clientIsNone hasCb beh TEST_CASES

/-! ## Support definitions for the theorems -/

/-- The single result the loop body produces for a case when no callback
exception interferes: the error dict if the generation call raised, the
normal dict otherwise. -/
def caseResult (tc : TestCase) (b : CaseRun) : EvalResult :=
  match b.response with
  | .error e => errResult tc b e
  | .ok resp => okResult tc b (extractQuery resp)

/-- The contribution of a case to `total_execution_time`: nothing when the
generation call raised (the latency was never computed), the latency
otherwise. -/
def caseTime (b : CaseRun) : ℚ :=
  match b.response with
  | .error _ => 0
  | .ok _ => b.genTime

/-- The results list the loop builds when the callback never raises. -/
def goodResults (beh : Nat → CaseRun) : List TestCase → Nat → List EvalResult
  | [], _ => []
  | tc :: rest, i => caseResult tc (beh i) :: goodResults beh rest (i + 1)

/-- The accumulated execution time when the callback never raises. -/
def goodTime (beh : Nat → CaseRun) : List TestCase → Nat → ℚ
  | [], _ => 0
  | _ :: rest, i => caseTime (beh i) + goodTime beh rest (i + 1)

/-- Default test case, for `List.getD`. -/
def dummyCase : TestCase := ⟨"", "", "", "", ""⟩

/-- Default evaluation result, for `List.getD`. -/
def dummyResult : EvalResult := ⟨"", dummyCase, "", "", false, 0, 0, none⟩

/-- A behaviour whose generation call succeeds and whose callback never
raises. -/
def benignRun : CaseRun := ⟨.ok (.dict (some "")), 0, 0, true, true, ""⟩

/-- A behaviour whose generation call raises `"API connection failed"`. -/
def failRun : CaseRun := ⟨.error "API connection failed", 0, 0, true, true, ""⟩

/-- A behaviour whose generation call returns the first expected query but
whose progress callback raises on the normal path (and returns normally on
the error path). -/
def cbBoomRun : CaseRun :=
  ⟨.ok (.dict (some "SELECT COUNT(*) FROM orders;")), 5, 0, false, true, "callback boom"⟩

/-- Number of results in a run outcome, when the run completed. -/
def resultsCount (r : Except String Report) : Option Nat :=
  match r with
  | .error _ => none
  | .ok rep => some rep.results.length

/-! ## String lemmas -/

theorem replaceAux_of_not_contains (pat rep : List Char) :
    ∀ fuel s, s.length ≤ fuel → containsL pat s = false → replaceAux pat rep fuel s = s := by
  intro fuel
  induction fuel with
  | zero =>
    intro s hs _
    have : s = [] := List.eq_nil_of_length_eq_zero (Nat.le_zero.mp hs)
    subst this
    rfl
  | succ n ih =>
    intro s hs hc
    cases s with
    | nil => rfl
    | cons c cs =>
      have hc2 : (pat.isPrefixOf (c :: cs) || containsL pat cs) = false := hc
      rw [Bool.or_eq_false_iff] at hc2
      rw [replaceAux, if_neg (by simp [hc2.1])]
      rw [ih cs (Nat.succ_le_succ_iff.mp hs) hc2.2]

theorem pyReplace_of_not_in (s pat rep : String) (h : pyIn pat s = false) :
    pyReplace s pat rep = s := by
  unfold pyReplace
  rw [replaceAux_of_not_contains pat.data rep.data s.data.length s.data le_rfl h]

theorem replaceAux_ne_nil (pat rep : List Char) (hrep : rep ≠ []) :
    ∀ fuel s, s ≠ [] → replaceAux pat rep fuel s ≠ [] := by
  intro fuel s hs
  cases fuel with
  | zero =>
    cases s with
    | nil => exact absurd rfl hs
    | cons c cs => exact hs
  | succ n =>
    cases s with
    | nil => exact absurd rfl hs
    | cons c cs =>
      rw [replaceAux]
      split
      · intro hh
        exact hrep (List.append_eq_nil.mp hh).1
      · exact List.cons_ne_nil c _

theorem string_data_ne_nil (s : String) (h : s ≠ "") : s.data ≠ [] := by
  intro hd
  apply h
  cases s
  simp_all

theorem pyReplace_ne_empty (s pat rep : String) (hs : s ≠ "") (hrep : rep ≠ "") :
    pyReplace s pat rep ≠ "" := by
  unfold pyReplace
  intro h
  exact replaceAux_ne_nil pat.data rep.data (string_data_ne_nil rep hrep)
    s.data.length s.data (string_data_ne_nil s hs) (congrArg String.data h)

theorem fix_spacing_ne_empty (q : String) (hq : q ≠ "") : fix_spacing q ≠ "" := by
  unfold fix_spacing
  apply pyReplace_ne_empty _ _ _ _ (by decide)
  apply pyReplace_ne_empty _ _ _ _ (by decide)
  apply pyReplace_ne_empty _ _ _ _ (by decide)
  exact pyReplace_ne_empty _ _ _ hq (by decide)

/-! ## C7: the spacing fix-ups -/

/-- C7 counterexample: the claim says the post-processing repairs a clause
keyword glued to *the preceding table name*, but the code only handles the
table `orders`: a keyword glued to `customers` is left untouched. -/
theorem C7_counterexample :
    fix_spacing "SELECT COUNT(*) FROM customersWHERE status = \x27completed\x27;"
      = "SELECT COUNT(*) FROM customersWHERE status = \x27completed\x27;"
    ∧ "SELECT COUNT(*) FROM customersWHERE status = \x27completed\x27;"
      ≠ "SELECT COUNT(*) FROM customers WHERE status = \x27completed\x27;" := by
  constructor
  · decide
  · decide

/-- C7 (amended): the post-processing repairs each occurrence of a clause
keyword (WHERE, GROUP BY, ORDER BY, LIMIT) glued to the table name `orders`
(the four enumerated patterns), inserting the missing space, and changes
nothing else: a string containing none of the four patterns is returned
unchanged. -/
theorem C7_fix_spacing (s : String)
    (h1 : pyIn "FROM ordersWHERE" s = false)
    (h2 : pyIn "FROM ordersGROUP BY" s = false)
    (h3 : pyIn "FROM ordersORDER BY" s = false)
    (h4 : pyIn "FROM ordersLIMIT" s = false) :
    fix_spacing s = s
    ∧ fix_spacing "SELECT COUNT(*) FROM ordersWHERE status = \x27completed\x27;"
        = "SELECT COUNT(*) FROM orders WHERE status = \x27completed\x27;"
    ∧ fix_spacing "SELECT status, AVG(total_amount) FROM ordersGROUP BY status;"
        = "SELECT status, AVG(total_amount) FROM orders GROUP BY status;"
    ∧ fix_spacing "SELECT id FROM ordersORDER BY id ASC;"
        = "SELECT id FROM orders ORDER BY id ASC;"
    ∧ fix_spacing "SELECT id FROM ordersLIMIT 10;"
        = "SELECT id FROM orders LIMIT 10;"
    ∧ fix_spacing "SELECT id FROM ordersLIMIT 1; SELECT id FROM ordersLIMIT 2;"
        = "SELECT id FROM orders LIMIT 1; SELECT id FROM orders LIMIT 2;" := by
  refine ⟨?_, by decide, by decide, by decide, by decide, by decide⟩
  unfold fix_spacing
  rw [pyReplace_of_not_in _ _ _ h1, pyReplace_of_not_in _ _ _ h2,
    pyReplace_of_not_in _ _ _ h3, pyReplace_of_not_in _ _ _ h4]

/-- Witness for `C7_fix_spacing` at a pattern-free concrete string. -/
theorem C7_witness :
    pyIn "FROM ordersWHERE" "SELECT COUNT(*) FROM orders;" = false
    ∧ fix_spacing "SELECT COUNT(*) FROM orders;" = "SELECT COUNT(*) FROM orders;" :=
  ⟨by decide,
   (C7_fix_spacing "SELECT COUNT(*) FROM orders;" (by decide) (by decide)
     (by decide) (by decide)).1⟩

/-! ## C2 and C4: the comparator -/

theorem jaccard_decide_false (A B : Finset String) (h : A ∩ B = ∅) :
    decide ((if A ∪ B = ∅ then (0 : ℚ) else ((A ∩ B).card : ℚ) / ((A ∪ B).card : ℚ)) > 4 / 5)
      = false := by
  rw [h]
  simp only [Finset.card_empty, Nat.cast_zero, zero_div, decide_eq_false_iff_not, not_lt]
  split <;> norm_num

theorem splitWsAux_no_ws :
    ∀ cs acc, cs.all (fun c => !isPyWs c) = true →
      splitWsAux cs acc
        = if acc.isEmpty && cs.isEmpty then [] else [⟨acc.reverse ++ cs⟩] := by
  intro cs
  induction cs with
  | nil =>
    intro acc _
    rw [splitWsAux]
    cases acc <;> simp
  | cons c cs ih =>
    intro acc hall
    rw [List.all_cons, Bool.and_eq_true] at hall
    have hc : isPyWs c = false := by
      cases hic : isPyWs c
      · rfl
      · rw [hic] at hall; exact absurd hall.1 (by decide)
    rw [splitWsAux, if_neg (by simp [hc])]
    rw [ih (c :: acc) hall.2]
    simp [List.reverse_cons, List.append_assoc]

theorem pySplit_no_ws (s : String) (h : s.data.all (fun c => !isPyWs c) = true) :
    pySplit s = if s = "" then [] else [s] := by
  unfold pySplit
  rw [splitWsAux_no_ws s.data [] h]
  by_cases hs : s = ""
  · subst hs
    simp
  · have hd : s.data ≠ [] := string_data_ne_nil s hs
    rw [if_neg hs]
    have : s.data.isEmpty = false := by
      cases hdd : s.data
      · exact absurd hdd hd
      · rfl
    simp [this]

/-- C2 counterexample: two queries sharing 10 of their 12 whitespace-separated
tokens.  The Jaccard similarity prescribed by the claim — over token sets of
the lowercased strings that still carry their internal whitespace — is
10/12 > 0.8, so the claim says they match; the code instead tokenizes the
fully normalized (space-removed) strings, obtains two distinct single-token
sets with similarity 0, and returns false. -/
theorem C2_counterexample :
    compare_queries
        (some "SELECT status, AVG(total_amount) FROM orders GROUP BY status LIMIT 10 ;")
        "SELECT status, AVG(total_amount) FROM orders GROUP BY status LIMIT 20 ;" = false
    ∧ normalize (some "SELECT status, AVG(total_amount) FROM orders GROUP BY status LIMIT 10 ;")
        ≠ normalize (some "SELECT status, AVG(total_amount) FROM orders GROUP BY status LIMIT 20 ;")
    ∧ specJaccard
        (specTokens "SELECT status, AVG(total_amount) FROM orders GROUP BY status LIMIT 10 ;")
        (specTokens "SELECT status, AVG(total_amount) FROM orders GROUP BY status LIMIT 20 ;")
      > 4 / 5 := by
  refine ⟨?_, by decide, ?_⟩
  · have hne : normalize
        (some "SELECT status, AVG(total_amount) FROM orders GROUP BY status LIMIT 10 ;")
        ≠ normalize
        (some "SELECT status, AVG(total_amount) FROM orders GROUP BY status LIMIT 20 ;") := by
      decide
    simp only [compare_queries, if_neg hne]
    exact jaccard_decide_false _ _ (by decide)
  · have hu : ¬ (specTokens "SELECT status, AVG(total_amount) FROM orders GROUP BY status LIMIT 10 ;"
        ∪ specTokens "SELECT status, AVG(total_amount) FROM orders GROUP BY status LIMIT 20 ;" = ∅) := by
      decide
    have hic : (specTokens "SELECT status, AVG(total_amount) FROM orders GROUP BY status LIMIT 10 ;"
        ∩ specTokens "SELECT status, AVG(total_amount) FROM orders GROUP BY status LIMIT 20 ;").card
        = 10 := by decide
    have huc : (specTokens "SELECT status, AVG(total_amount) FROM orders GROUP BY status LIMIT 10 ;"
        ∪ specTokens "SELECT status, AVG(total_amount) FROM orders GROUP BY status LIMIT 20 ;").card
        = 12 := by decide
    rw [specJaccard, if_neg hu, hic, huc]
    norm_num

/-- C2 (amended): when the normalized forms differ, the code tokenizes the
*fully normalized* strings — lowercased, all spaces and quote characters
removed, stripped — on the remaining whitespace, and answers the Jaccard
test (similarity 0 on an empty union) against the strict 0.8 threshold on
those token sets.  Consequently, whenever neither normalized string contains
a residual whitespace character, each token set is a single blob and the
Jaccard path never matches. -/
theorem C2_compare_jaccard (g e : String)
    (h : normalize (some g) ≠ normalize (some e)) :
    (compare_queries (some g) e = true
      ↔ specJaccard (tokens (normalize (some g))) (tokens (normalize (some e))) > 4 / 5)
    ∧ ((normalize (some g)).data.all (fun c => !isPyWs c) = true →
       (normalize (some e)).data.all (fun c => !isPyWs c) = true →
       compare_queries (some g) e = false) := by
  constructor
  · simp only [compare_queries, specJaccard, if_neg h, decide_eq_true_eq]
  · intro hwg hwe
    simp only [compare_queries, if_neg h]
    apply jaccard_decide_false
    unfold tokens
    rw [pySplit_no_ws _ hwg, pySplit_no_ws _ hwe]
    by_cases hg0 : normalize (some g) = ""
    · rw [if_pos hg0]
      simp
    · rw [if_neg hg0]
      by_cases he0 : normalize (some e) = ""
      · rw [if_pos he0]
        simp
      · rw [if_neg he0]
        have hsing : ({normalize (some g)} : Finset String) ∩ {normalize (some e)} = ∅ :=
          Finset.singleton_inter_of_not_mem (by simp [h])
        simpa using hsing

/-- Witness for `C2_compare_jaccard`. -/
theorem C2_witness :
    normalize (some "ab") ≠ normalize (some "cd")
    ∧ (compare_queries (some "ab") "cd" = true
        ↔ specJaccard (tokens (normalize (some "ab"))) (tokens (normalize (some "cd"))) > 4 / 5)
    ∧ compare_queries (some "ab") "cd" = false :=
  ⟨by decide, (C2_compare_jaccard "ab" "cd" (by decide)).1,
   (C2_compare_jaccard "ab" "cd" (by decide)).2 (by decide) (by decide)⟩

/-- C4 counterexample: the claim says `compare` is false whenever the
generated query is the empty string, but an empty generated query compared
against an expected query that also normalizes to the empty string takes the
exact-match branch and yields `true`. -/
theorem C4_counterexample : compare_queries (some "") "" = true := by decide

/-- C4 (amended): `compare` is false whenever the generated query is null;
for an empty generated query it is false whenever the expected query does
not itself normalize to the empty string. -/
theorem C4_null_empty (e : String) :
    compare_queries none e = false
    ∧ (normalize (some e) ≠ "" → compare_queries (some "") e = false) := by
  refine ⟨rfl, fun h => ?_⟩
  have h0 : normalize (some "") = "" := rfl
  have hcond : ¬ ("" = normalize (some e)) := fun hh => h hh.symm
  have ht : tokens "" = ∅ := rfl
  simp only [compare_queries, h0, ht]
  rw [if_neg hcond, Finset.empty_inter, Finset.empty_union]
  simp only [decide_eq_false_iff_not, not_lt, Finset.card_empty]
  split
  · norm_num
  · rw [Nat.cast_zero, zero_div]
    norm_num

/-- Witness for `C4_null_empty`. -/
theorem C4_witness :
    compare_queries none "SELECT 1;" = false
    ∧ normalize (some "SELECT 1;") ≠ ""
    ∧ compare_queries (some "") "SELECT 1;" = false :=
  ⟨(C4_null_empty "SELECT 1;").1, by decide, (C4_null_empty "SELECT 1;").2 (by decide)⟩

/-! ## Generator lemmas and claims C3, C8, C10 -/

theorem secondPass_query_none :
    ∀ outs d, secondPass outs = .ok d → d.query = none := by
  intro outs
  induction outs with
  | nil =>
    intro d h
    injection h with h
    subst h
    rfl
  | cons o os ih =>
    intro d h
    rw [secondPass] at h
    cases hco : o.content with
    | none => simp only [hco] at h; exact ih d h
    | some cv =>
      simp only [hco] at h
      by_cases htr : contentTruthy cv = true
      · rw [if_pos htr] at h
        cases cv with
        | textObj t => exact Except.noConfusion h
        | items xs =>
          dsimp only at h
          cases hf : findText xs with
          | none => rw [hf] at h; exact ih d h
          | some t =>
            rw [hf] at h
            injection h with h
            subst h
            rfl
        | plain s => exact ih d h
      · rw [if_neg htr] at h
        exact ih d h

theorem processOutputs_one_variant :
    ∀ outs d, processOutputs outs = .ok d → d.query = none ∨ d.clarification = none := by
  intro outs d h
  unfold processOutputs at h
  cases hfp : firstPass outs with
  | ret m =>
    simp only [hfp] at h
    injection h with h
    subst h
    left
    rfl
  | done =>
    simp only [hfp] at h
    left
    exact secondPass_query_none outs d h
  | brk q =>
    simp only [hfp] at h
    by_cases hq : q = ""
    · rw [if_pos hq] at h
      left
      exact secondPass_query_none outs d h
    · rw [if_neg hq] at h
      injection h with h
      subst h
      right
      rfl

/-- C10: every dict returned by `generate_query_with_clarification` has at
most one of `query` and `clarification` populated. -/
theorem C10_one_variant (nlq : String) (st : CapState) (d : GenDict) (st2 : CapState)
    (h : generate_query_with_clarification nlq st = (.ok d, st2)) :
    d.query = none ∨ d.clarification = none := by
  unfold generate_query_with_clarification capCall at h
  cases st with
  | mk queue calls =>
    cases queue with
    | nil => exact Except.noConfusion (congrArg Prod.fst h)
    | cons r rest =>
      cases r with
      | error e => exact Except.noConfusion (congrArg Prod.fst h)
      | ok outs =>
        have h1 : processOutputs outs = .ok d := congrArg Prod.fst h
        exact processOutputs_one_variant outs d h1

/-- Witness for `C10_one_variant`: a concrete call whose response has no
usable output yields the generic clarification dict. -/
theorem C10_witness :
    generate_query_with_clarification "count all orders" ⟨[Except.ok []], 0⟩
      = (Except.ok ⟨none,
          some "I couldn\x27t understand your query. Please try rephrasing it.",
          "needs_clarification"⟩, ⟨[], 1⟩)
    ∧ ((none : Option String) = none ∨
        (some "I couldn\x27t understand your query. Please try rephrasing it." : Option String) = none) :=
  ⟨rfl, C10_one_variant "count all orders" ⟨[Except.ok []], 0⟩ _ ⟨[], 1⟩ rfl⟩

/-- C3 counterexample: on a transport exception the orchestrator does not
return any result dict at all — the exception propagates (`except ... raise`),
so no Failure-carrying value is returned to the caller. -/
theorem C3_counterexample :
    (generate_query_with_clarification "count all orders"
        ⟨[Except.error "Connection error."], 0⟩).1 = Except.error "Connection error."
    ∧ ((generate_query_with_clarification "count all orders"
        ⟨[Except.error "Connection error."], 0⟩).1).isOk = false := ⟨rfl, rfl⟩

/-- C3 (amended): when the capability call raises, `generate` re-raises the
same exception (the caller sees its message) and makes exactly one
capability call — no retry. -/
theorem C3_no_retry (nlq : String) (rest : List (Except String (List OutputElem)))
    (n : Nat) (e : String) :
    generate_query_with_clarification nlq ⟨.error e :: rest, n⟩
      = (.error e, ⟨rest, n + 1⟩) := rfl

/-- C8 counterexample: a free-text response element whose text contains no
clarification phrase is claimed to be treated as the generated query, but a
whitespace-only text strips to an empty `generated_query` and falls through
to the fallback loop, which returns it as a clarification instead. -/
theorem C8_counterexample :
    (generate_query_with_clarification "count all orders"
        ⟨[Except.ok [⟨none, some (.items [.textItem "   "]), none⟩]], 0⟩).1
      = Except.ok ⟨none, some "   ", "needs_clarification"⟩
    ∧ hasClarPhrase (pyLower "   ") = false := ⟨rfl, by decide⟩

/-- C8 (amended): for a free-text response element, if the lowercased
(stripped) text contains a clarification phrase the result is a
Clarification carrying that text and no query; otherwise, when the stripped
text is non-empty, the text is treated as the generated query (with the
spacing fix-ups applied).  Whitespace-only free text instead reaches the
fallback path (see `C8_counterexample`). -/
theorem C8_free_text (nlq t : String) :
    (hasClarPhrase (pyLower (pyStrip t)) = true →
      (generate_query_with_clarification nlq
          ⟨[Except.ok [⟨none, some (.textObj t), none⟩]], 0⟩).1
        = Except.ok ⟨none, some (pyStrip t), "needs_clarification"⟩)
    ∧ (hasClarPhrase (pyLower (pyStrip t)) = false → pyStrip t ≠ "" →
      (generate_query_with_clarification nlq
          ⟨[Except.ok [⟨none, some (.textObj t), none⟩]], 0⟩).1
        = Except.ok ⟨some (fix_spacing (pyStrip t)), none, "success"⟩) := by
  constructor
  · intro hphrase
    simp only [generate_query_with_clarification, capCall, processOutputs,
      firstPass, slHit, contentProbe, hphrase, if_true]
  · intro hphrase hne
    simp only [generate_query_with_clarification, capCall, processOutputs,
      firstPass, slHit, contentProbe, hphrase, Bool.false_eq_true, if_false,
      if_neg hne, if_neg (fix_spacing_ne_empty (pyStrip t) hne)]

/-- Witness for `C8_free_text`: a phrase-bearing text is classified as a
clarification. -/
theorem C8_witness :
    hasClarPhrase (pyLower (pyStrip "Could you clarify the time range?")) = true
    ∧ (generate_query_with_clarification "recent orders"
        ⟨[Except.ok [⟨none, some (.textObj "Could you clarify the time range?"), none⟩]], 0⟩).1
      = Except.ok ⟨none, some (pyStrip "Could you clarify the time range?"), "needs_clarification"⟩ :=
  ⟨by decide,
   (C8_free_text "recent orders" "Could you clarify the time range?").1 (by decide)⟩

/-! ## Harness loop lemmas -/

theorem caseResult_test_case (tc : TestCase) (b : CaseRun) :
    (caseResult tc b).test_case = tc := by
  cases hb : b.response <;> simp [caseResult, errResult, okResult, hb]

theorem runLoop_ok (hasCb : Bool) (beh : Nat → CaseRun)
    (hcb : hasCb = true → ∀ j, (beh j).cbPassOk = true ∧ (beh j).cbErrOk = true) :
    ∀ corpus i, runLoop hasCb beh corpus i
      = .ok (goodResults beh corpus i, goodTime beh corpus i) := by
  intro corpus
  induction corpus with
  | nil => intro i; rfl
  | cons tc rest ih =>
    intro i
    have hguardE : (hasCb && !(beh i).cbErrOk) = false := by
      cases hc : hasCb
      · rfl
      · simp [(hcb hc i).2]
    have hguardP : (hasCb && !(beh i).cbPassOk) = false := by
      cases hc : hasCb
      · rfl
      · simp [(hcb hc i).1]
    rw [runLoop, goodResults, goodTime]
    cases hres : (beh i).response with
    | error e =>
      dsimp only
      rw [hguardE]
      rw [if_neg (by decide : ¬ (false = true))]
      rw [ih (i + 1)]
      dsimp only
      simp [caseResult, caseTime, hres]
    | ok resp =>
      dsimp only
      rw [hguardP]
      rw [if_neg (by decide : ¬ (false = true))]
      rw [ih (i + 1)]
      dsimp only
      simp [caseResult, caseTime, hres]

theorem goodResults_length (beh : Nat → CaseRun) :
    ∀ corpus i, (goodResults beh corpus i).length = corpus.length := by
  intro corpus
  induction corpus with
  | nil => intro i; rfl
  | cons tc rest ih => intro i; simp [goodResults, ih (i + 1)]

theorem goodResults_getD (beh : Nat → CaseRun) :
    ∀ corpus i j, j < corpus.length →
      (goodResults beh corpus i).getD j dummyResult
        = caseResult (corpus.getD j dummyCase) (beh (i + j)) := by
  intro corpus
  induction corpus with
  | nil => intro i j hj; exact absurd hj (by simp)
  | cons tc rest ih =>
    intro i j hj
    cases j with
    | zero => simp [goodResults]
    | succ k =>
      have hk : k < rest.length := Nat.lt_of_succ_lt_succ hj
      have hik : i + 1 + k = i + (k + 1) := by omega
      simp only [goodResults, List.getD_cons_succ, List.getD_cons_zero]
      rw [ih (i + 1) k hk, hik]

theorem runLoop_time (hasCb : Bool) (beh : Nat → CaseRun) :
    ∀ corpus i rs t, runLoop hasCb beh corpus i = .ok (rs, t) →
      t = (rs.map (fun r => r.execution_time)).sum := by
  intro corpus
  induction corpus with
  | nil =>
    intro i rs t h
    injection h with h
    injection h with h1 h2
    subst h1
    subst h2
    simp
  | cons tc rest ih =>
    intro i rs t h
    rw [runLoop] at h
    cases hres : (beh i).response with
    | error e =>
      rw [hres] at h
      dsimp only at h
      by_cases hg : (hasCb && !(beh i).cbErrOk) = true
      · rw [if_pos hg] at h
        exact Except.noConfusion h
      · rw [if_neg hg] at h
        cases hrec : runLoop hasCb beh rest (i + 1) with
        | error a =>
          rw [hrec] at h
          exact Except.noConfusion h
        | ok p =>
          obtain ⟨rs1, t1⟩ := p
          rw [hrec] at h
          dsimp only at h
          injection h with h
          injection h with h1 h2
          subst h1
          subst h2
          simp [errResult, ih (i + 1) rs1 t1 hrec]
    | ok resp =>
      rw [hres] at h
      dsimp only at h
      by_cases hg : (hasCb && !(beh i).cbPassOk) = true
      · rw [if_pos hg] at h
        by_cases hg2 : (!(beh i).cbErrOk) = true
        · rw [if_pos hg2] at h
          exact Except.noConfusion h
        · rw [if_neg hg2] at h
          cases hrec : runLoop hasCb beh rest (i + 1) with
          | error a =>
            rw [hrec] at h
            exact Except.noConfusion h
          | ok p =>
            obtain ⟨rs1, t1⟩ := p
            rw [hrec] at h
            dsimp only at h
            injection h with h
            injection h with h1 h2
            subst h1
            subst h2
            simp [okResult, errResult, ih (i + 1) rs1 t1 hrec]
      · rw [if_neg hg] at h
        cases hrec : runLoop hasCb beh rest (i + 1) with
        | error a =>
          rw [hrec] at h
          exact Except.noConfusion h
        | ok p =>
          obtain ⟨rs1, t1⟩ := p
          rw [hrec] at h
          dsimp only at h
          injection h with h
          injection h with h1 h2
          subst h1
          subst h2
          simp [okResult, ih (i + 1) rs1 t1 hrec]

/-! ## Claims C1, C5, C6, C9 -/

/-- C1 counterexample: with the generator unconfigured the early return does
not produce a zero-valued metrics object — `total_tests` is the corpus size
(5, not 0), there is no `failed_tests` entry at all, and `category_breakdown`
is empty rather than carrying four zero-valued entries. -/
theorem C1_counterexample :
    run_evaluation true false (fun _ => benignRun)
      = Except.ok ⟨[], ⟨5, 0, none, 0, 0, []⟩, some NO_CLIENT_MSG⟩
    ∧ (5 : Nat) ≠ 0 := ⟨rfl, by decide⟩

/-- C1 (amended): if the generator client is `None`, `run_evaluation`
returns — without executing any test case (empty results, the capability
behaviour never consulted) — a report whose metrics have `passed_tests` 0,
`accuracy` 0, `average_execution_time` 0, `total_tests` equal to the corpus
size, no `failed_tests` entry and an empty `category_breakdown`, together
with the explanatory error message. -/
theorem C1_noClient_report (hasCb : Bool) (beh : Nat → CaseRun) :
    run_evaluation true hasCb beh
      = Except.ok ⟨[], ⟨TEST_CASES.length, 0, none, 0, 0, []⟩, some NO_CLIENT_MSG⟩ := rfl

/-- C5: for every corpus and every behaviour of the generation collaborator,
provided the progress callback (if one was supplied) does not itself raise,
the run completes, produces one result per case, and every case whose
generation call raised is recorded as the failing result carrying the
exception message. -/
theorem C5_per_case_errors (corpus : List TestCase) (hasCb : Bool) (beh : Nat → CaseRun)
    (hcb : hasCb = true → ∀ j, (beh j).cbPassOk = true ∧ (beh j).cbErrOk = true) :
    ∃ rep : Report, runEvaluationOn false hasCb beh corpus = .ok rep
      ∧ rep.results.length = corpus.length
      ∧ ∀ j e, j < corpus.length → (beh j).response = .error e →
          rep.results.getD j dummyResult = errResult (corpus.getD j dummyCase) (beh j) e := by
  refine ⟨⟨goodResults beh corpus 0,
    calculate_metrics (goodResults beh corpus 0) (goodTime beh corpus 0), none⟩, ?_, ?_, ?_⟩
  · unfold runEvaluationOn
    rw [runLoop_ok hasCb beh hcb corpus 0]
    rfl
  · exact goodResults_length beh corpus 0
  · intro j e hj hres
    rw [goodResults_getD beh corpus 0 j hj]
    simp [caseResult, hres]

/-- Witness for `C5_per_case_errors`: a run without callback whose
generation call raises on every case. -/
theorem C5_witness :
    (false = true → ∀ j, ((fun (_ : Nat) => failRun) j : CaseRun).cbPassOk = true
      ∧ ((fun (_ : Nat) => failRun) j : CaseRun).cbErrOk = true)
    ∧ ∃ rep : Report, runEvaluationOn false false (fun _ => failRun) TEST_CASES = .ok rep
      ∧ rep.results.length = TEST_CASES.length
      ∧ ∀ j e, j < TEST_CASES.length → ((fun (_ : Nat) => failRun) j : CaseRun).response = .error e →
          rep.results.getD j dummyResult
            = errResult (TEST_CASES.getD j dummyCase) ((fun (_ : Nat) => failRun) j) e :=
  ⟨(fun h => nomatch h),
   C5_per_case_errors TEST_CASES false (fun _ => failRun) (fun h => nomatch h)⟩

/-- C6: the metrics of every completed run satisfy the spec formulas:
`total_tests` is the number of results, `passed_tests` counts the correct
ones, `failed_tests = total - passed`, `accuracy = passed/total` guarded by
`total > 0`, `average_execution_time` is the sum of the recorded latencies
over the total guarded by `total > 0`, and `category_breakdown` has an
entry for each of the four categories, with accuracy 0 when the category
total is 0. -/
theorem C6_metrics_after_run (hasCb : Bool) (beh : Nat → CaseRun)
    (corpus : List TestCase) (rep : Report)
    (h : runEvaluationOn false hasCb beh corpus = .ok rep) :
    rep.metrics.total_tests = rep.results.length
    ∧ rep.metrics.passed_tests = (rep.results.filter (fun r => r.is_correct)).length
    ∧ rep.metrics.failed_tests = some (rep.metrics.total_tests - rep.metrics.passed_tests)
    ∧ rep.metrics.accuracy = (if 0 < rep.results.length then
        (((rep.results.filter (fun r => r.is_correct)).length : ℚ) / (rep.results.length : ℚ))
        else 0)
    ∧ rep.metrics.average_execution_time = (if 0 < rep.results.length then
        ((rep.results.map (fun r => r.execution_time)).sum / (rep.results.length : ℚ))
        else 0)
    ∧ ∀ c ∈ (["basic", "aggregation", "filtering", "complex"] : List String),
        ∃ st : CatStats, (c, st) ∈ rep.metrics.category_breakdown
          ∧ st.total = (rep.results.filter (fun r => r.test_case.category = c)).length
          ∧ st.passed = ((rep.results.filter (fun r => r.test_case.category = c)).filter
              (fun r => r.is_correct)).length
          ∧ (st.total = 0 → st.accuracy = 0) := by
  unfold runEvaluationOn at h
  rw [if_neg (by decide : ¬ (false = true))] at h
  cases hloop : runLoop hasCb beh corpus 0 with
  | error a =>
    rw [hloop] at h
    exact Except.noConfusion h
  | ok p =>
    obtain ⟨rs, t⟩ := p
    rw [hloop] at h
    dsimp only at h
    injection h with h
    subst h
    have ht : t = (rs.map (fun r => r.execution_time)).sum :=
      runLoop_time hasCb beh corpus 0 rs t hloop
    subst ht
    refine ⟨rfl, rfl, rfl, rfl, rfl, ?_⟩
    intro c hc
    refine ⟨_, List.mem_map.mpr ⟨c, hc, rfl⟩, rfl, rfl, fun h0 => ?_⟩
    have h0q : (rs.filter (fun r => r.test_case.category = c)).length = 0 := h0
    show (if 0 < (rs.filter (fun r => r.test_case.category = c)).length then
      (((rs.filter (fun r => r.test_case.category = c)).filter
        (fun r => r.is_correct)).length : ℚ)
        / ((rs.filter (fun r => r.test_case.category = c)).length : ℚ) else 0) = 0
    rw [h0q]
    simp

/-- Witness for `C6_metrics_after_run`: the empty corpus. -/
theorem C6_witness :
    runEvaluationOn false false (fun _ => benignRun) [] = Except.ok ⟨[], calculate_metrics [] 0, none⟩
    ∧ (⟨[], calculate_metrics [] 0, none⟩ : Report).metrics.total_tests
        = (⟨[], calculate_metrics [] 0, none⟩ : Report).results.length :=
  ⟨rfl, (C6_metrics_after_run false (fun _ => benignRun) []
    ⟨[], calculate_metrics [] 0, none⟩ rfl).1⟩

/-- C9 counterexample: a progress callback that raises after a successful
case makes the per-case handler append a second, failing result for the same
case: a one-case corpus yields two results. -/
theorem C9_counterexample :
    resultsCount (runEvaluationOn false true (fun _ => cbBoomRun) (TEST_CASES.take 1)) = some 2
    ∧ (TEST_CASES.take 1).length = 1 := ⟨rfl, rfl⟩

/-- C9 (amended): provided the supplied progress callback never raises (in
particular when no callback is supplied), exactly one `EvaluationResult` is
appended per corpus entry, in corpus order, so the results list has the
corpus length and the j-th result belongs to the j-th case.  A callback
exception instead produces an extra failing result for the affected case
(see `C9_counterexample`). -/
theorem C9_one_result_per_case (corpus : List TestCase) (hasCb : Bool) (beh : Nat → CaseRun)
    (hcb : hasCb = true → ∀ j, (beh j).cbPassOk = true ∧ (beh j).cbErrOk = true) :
    ∃ rep : Report, runEvaluationOn false hasCb beh corpus = .ok rep
      ∧ rep.results.length = corpus.length
      ∧ ∀ j, j < corpus.length →
          (rep.results.getD j dummyResult).test_case = corpus.getD j dummyCase := by
  refine ⟨⟨goodResults beh corpus 0,
    calculate_metrics (goodResults beh corpus 0) (goodTime beh corpus 0), none⟩, ?_, ?_, ?_⟩
  · unfold runEvaluationOn
    rw [runLoop_ok hasCb beh hcb corpus 0]
    rfl
  · exact goodResults_length beh corpus 0
  · intro j hj
    rw [goodResults_getD beh corpus 0 j hj]
    exact caseResult_test_case _ _

/-- Witness for `C9_one_result_per_case`: the callback-free run over the
repository corpus. -/
theorem C9_witness :
    (false = true → ∀ j, ((fun (_ : Nat) => benignRun) j : CaseRun).cbPassOk = true
      ∧ ((fun (_ : Nat) => benignRun) j : CaseRun).cbErrOk = true)
    ∧ ∃ rep : Report, runEvaluationOn false false (fun _ => benignRun) TEST_CASES = .ok rep
      ∧ rep.results.length = TEST_CASES.length
      ∧ ∀ j, j < TEST_CASES.length →
          (rep.results.getD j dummyResult).test_case = TEST_CASES.getD j dummyCase :=
  ⟨(fun h => nomatch h),
   C9_one_result_per_case TEST_CASES false (fun _ => benignRun) (fun h => nomatch h)⟩

end CfgToy
